import Mathlib

/-!
Shallow embedding of the riteaid-covid aggregation service (src/src/main.rs).

The service resolves a postal code to a list of stores through a cache-aside
lookup (`list_stores`), then probes slot availability once per store and
collects all results, failing the whole request on the first probe failure
(`availability`).

Modelling choices:
* The two upstream HTTP endpoints reached through the shared `reqwest::Client`
  are modelled as the two fields of `Client`: each takes the request parameter
  and returns either a decoded response or an upstream error.
* An upstream call that fails at the network layer (`send()` erroring) or at
  the decode layer (`.json()` erroring) yields `Err.network` or `Err.decode`;
  the `?` operator propagating either is `Except` bind / explicit matching.
* The `DashMap<String, GetStoresResponse>` store cache is modelled as an
  association list threaded through the functions as explicit state; `insert`
  is cons (the freshest binding shadows older ones, which is what `get`
  observes after a DashMap overwrite).
* The `FuturesUnordered` fan-out followed by `try_collect` is sequentialised
  in store-list order (`runProbes`); completion order is irrelevant to the
  claims proved here, which concern the success set, the error cases, and the
  multiset of issued probes.  `runProbes` also returns the list of
  `storeNumber` query parameters actually sent, instrumenting which probes
  were issued.
-/

/-- Upstream failure: the outbound call itself failed (`reqwest` send error)
or the response body did not decode (`.json()` error). -/
inductive Err where
  | network : Err
  | decode : Err
deriving DecidableEq, Repr

/-- One store record of the locator response (struct `Store` in main.rs):
`storeNumber: i32`, `address`, `zipcode`, `fullPhone`.  The `i32` is modelled
as `Int`; the program never does arithmetic on it, only copies and sends it. -/
structure Store where
  store_number : Int
  address : String
  zip_code : String
  phone : String
deriving DecidableEq, Repr

/-- Inner object of the locator response (struct `GetStoresData`). -/
structure GetStoresData where
  stores : List Store
deriving DecidableEq, Repr

/-- Envelope of the locator response (struct `GetStoresResponse`, field
`Data`). -/
structure GetStoresResponse where
  data : GetStoresData
deriving DecidableEq, Repr

/-- The decoded `HashMap<String, bool>` of slot flags, as an association
list; a decoded JSON object has pairwise distinct keys. -/
abbrev SlotMap := List (String × Bool)

/-- Inner object of the slot-check response (struct `CheckSlotsData`). -/
structure CheckSlotsData where
  slots : SlotMap
deriving DecidableEq, Repr

/-- Envelope of the slot-check response (struct `CheckSlotsResponse`, field
`Data`). -/
structure CheckSlotsResponse where
  data : CheckSlotsData
deriving DecidableEq, Repr

/-- One element of the aggregated reply (struct `AvailabilityResponse`). -/
structure AvailabilityResponse where
  id : Int
  address : String
  possible_availability : Bool
  zip : String
  phone : String
deriving DecidableEq, Repr

/-- The two upstream endpoints reachable through the `reqwest::Client`:
`getStores` is the GET to `/stores/getStores` keyed by the `address` (zip
code) query parameter, `checkSlots` the GET to `/vaccine/checkSlots` keyed by
the `storeNumber` query parameter.  Each returns the decoded response or the
upstream error that `?` would propagate. -/
structure Client where
  getStores : String → Except Err GetStoresResponse
  checkSlots : Int → Except Err CheckSlotsResponse

/-- The `DashMap<String, GetStoresResponse>` store cache as explicit state. -/
abbrev Cache := List (String × GetStoresResponse)

/-- `list_stores` from main.rs: return the cached response on a hit;
otherwise call the locator upstream, and only on success insert the decoded
response into the cache before returning it.  An upstream error is returned
with the cache untouched (the `?` fires before `store_cache.insert`). -/
def list_stores (zip_code : String) (client : Client) (store_cache : Cache) :
    Except Err GetStoresResponse × Cache :=
  match store_cache.lookup zip_code with
  | some stores => (.ok stores, store_cache)
  | none =>
    match client.getStores zip_code with
    | .error e => (.error e, store_cache)
    | .ok response => (.ok response, (zip_code, response) :: store_cache)

/-- The availability policy computed in the probe closure of `availability`:
`*slots.get("1").unwrap_or(&false) && *slots.get("1").unwrap_or(&false)
&& slots.len() == 2`, including the redundant second check of key `"1"`. -/
def possible_availability (slots : SlotMap) : Bool :=
  (slots.lookup "1").getD false && (slots.lookup "1").getD false
    && slots.length == 2

/-- The body of one probe future pushed onto the `FuturesUnordered`: send the
slot-check request with the store's `storeNumber` as the query parameter,
and on success build the `AvailabilityResponse` copying `store_number`,
`address`, `zip_code` and `phone` from the store record.  The second
component is the `storeNumber` query parameter the probe sends. -/
def probe (client : Client) (store : Store) :
    Except Err AvailabilityResponse × Int :=
  (match client.checkSlots store.store_number with
   | .error e => .error e
   | .ok response =>
     .ok { id := store.store_number
           address := store.address
           possible_availability := possible_availability response.data.slots
           zip := store.zip_code
           phone := store.phone },
   store.store_number)

/-- The fan-out/fan-in of `availability`: one probe per store record, all
results collected by `try_collect`, the first failure aborting with that
error.  Sequentialised in store order; the second component is the list of
`storeNumber` query parameters issued. -/
def runProbes (client : Client) :
    List Store → Except Err (List AvailabilityResponse) × List Int
  | [] => (.ok [], [])
  | store :: rest =>
    match probe client store with
    | (.error e, q) => (.error e, [q])
    | (.ok record, q) =>
      match runProbes client rest with
      | (.error e, log) => (.error e, q :: log)
      | (.ok records, log) => (.ok (record :: records), q :: log)

/-- `availability` from main.rs: resolve the store list via `list_stores`
(propagating its error), then run one probe per store and collect.  Returns
the reply-or-error, the probes issued, and the final cache state. -/
def availability (zip_code : String) (client : Client) (store_cache : Cache) :
    Except Err (List AvailabilityResponse) × List Int × Cache :=
  match list_stores zip_code client store_cache with
  | (.error e, cache) => (.error e, [], cache)
  | (.ok response, cache) =>
    match runProbes client response.data.stores with
    | (result, log) => (result, log, cache)

/-- A JSON value, as far as the upstream payloads need: objects are
association lists of fields in payload order.  Numbers are modelled as `Int`
(the only number the decoder reads is the integral `storeNumber`). -/
inductive Json where
  | null : Json
  | bool (b : Bool) : Json
  | num (n : Int) : Json
  | str (s : String) : Json
  | arr (elems : List Json) : Json
  | obj (fields : List (String × Json)) : Json

/-- Smallest `i32` value, `-2^31`. -/
def i32Min : Int := -2147483648

/-- Largest `i32` value, `2^31 - 1`. -/
def i32Max : Int := 2147483647

/-- serde_json decoding of an `i32` field value: a JSON number holding an
integer within `i32` range; any other value — including an integer outside
that range — is a decode error. -/
def decodeI32 : Json → Except Err Int
  | .num n => if i32Min ≤ n ∧ n ≤ i32Max then .ok n else .error .decode
  | _ => .error .decode

/-- serde_json decoding of a `String` field value. -/
def decodeString : Json → Except Err String
  | .str s => .ok s
  | _ => .error .decode

/-- The four field slots the derived `Deserialize` for `Store` fills while
walking the payload map. -/
structure StoreFields where
  store_number : Option Int
  address : Option String
  zip_code : Option String
  phone : Option String

/-- The payload keys the derived `Deserialize` for `Store` consumes:
`storeNumber` (renamed), `address`, `zipcode` (renamed), `fullPhone`
(renamed). -/
def storeKeys : List String := ["storeNumber", "address", "zipcode", "fullPhone"]

/-- The visitor loop of the derived `Deserialize` for `Store`: walk the
payload fields in order; a known key fills its slot, where a second
occurrence of the same known key is a `duplicate_field` error and an
undecodable value a decode error; a field under any other key is skipped
(serde's default, no `deny_unknown_fields`). -/
def decodeStoreFields :
    List (String × Json) → StoreFields → Except Err StoreFields
  | [], acc => .ok acc
  | (k, v) :: rest, acc =>
    if k = "storeNumber" then
      match acc.store_number with
      | some _ => .error .decode
      | none =>
        match decodeI32 v with
        | .error e => .error e
        | .ok n => decodeStoreFields rest { acc with store_number := some n }
    else if k = "address" then
      match acc.address with
      | some _ => .error .decode
      | none =>
        match decodeString v with
        | .error e => .error e
        | .ok a => decodeStoreFields rest { acc with address := some a }
    else if k = "zipcode" then
      match acc.zip_code with
      | some _ => .error .decode
      | none =>
        match decodeString v with
        | .error e => .error e
        | .ok z => decodeStoreFields rest { acc with zip_code := some z }
    else if k = "fullPhone" then
      match acc.phone with
      | some _ => .error .decode
      | none =>
        match decodeString v with
        | .error e => .error e
        | .ok p => decodeStoreFields rest { acc with phone := some p }
    else decodeStoreFields rest acc

/-- Final step of the derived `Deserialize`: any slot still empty after the
walk is a `missing_field` error. -/
def finishStore : Except Err StoreFields → Except Err Store
  | .error e => .error e
  | .ok acc =>
    match acc.store_number, acc.address, acc.zip_code, acc.phone with
    | some n, some a, some z, some p => .ok ⟨n, a, z, p⟩
    | _, _, _, _ => .error .decode

/-- The derived `Deserialize` for struct `Store` on a JSON value: only an
object decodes; its fields are walked by `decodeStoreFields` and the slots
then assembled by `finishStore`. -/
def decodeStore : Json → Except Err Store
  | .obj fields => finishStore (decodeStoreFields fields ⟨none, none, none, none⟩)
  | _ => .error .decode

/-- What a visitor slot must look like, relative to the remaining payload
fields, for decoding to succeed: a filled slot must not occur again, an
empty slot must be present with a decodable value. -/
def slotSpec {α : Type} (dec : Json → Except Err α) (key : String)
    (fields : List (String × Json)) : Option α → Prop
  | some _ => fields.lookup key = none
  | none => ∃ v a, fields.lookup key = some v ∧ dec v = .ok a

/-- A complete well-formed store payload with one extra unknown field's
worth of room to spare: every required field present once, in range. -/
def storePayload : List (String × Json) :=
  [("storeNumber", .num 100), ("address", .str "1 Main St"),
   ("zipcode", .str "10001"), ("fullPhone", .str "555-0001")]

/-- A payload carrying every required field with its required type in which
the `storeNumber` field occurs twice. -/
def dupFieldPayload : List (String × Json) :=
  [("storeNumber", .num 100), ("storeNumber", .num 100),
   ("address", .str "1 Main St"), ("zipcode", .str "10001"),
   ("fullPhone", .str "555-0001")]

/-- A payload carrying every required field under its key, whose
`storeNumber` value 3000000000 lies outside `i32` range. -/
def hugeIdPayload : List (String × Json) :=
  [("storeNumber", .num 3000000000), ("address", .str "1 Main St"),
   ("zipcode", .str "10001"), ("fullPhone", .str "555-0001")]

/-- The two stores of the concrete scenario in the spec: {id 100, "1 Main
St", "10001", "555-0001"} and {id 200, "2 Main St", "10001", "555-0002"}. -/
def scenarioStores : GetStoresResponse :=
  ⟨⟨[⟨100, "1 Main St", "10001", "555-0001"⟩,
     ⟨200, "2 Main St", "10001", "555-0002"⟩]⟩⟩

/-- Scenario client: the locator returns the two scenario stores; the slot
check returns {"1": true, "2": true} for store 100 and {"1": false,
"2": true} for store 200. -/
def scenarioClient : Client where
  getStores := fun _ => .ok scenarioStores
  checkSlots := fun id =>
    if id == 100 then .ok ⟨⟨[("1", true), ("2", true)]⟩⟩
    else if id == 200 then .ok ⟨⟨[("1", false), ("2", true)]⟩⟩
    else .error .network

/-- A client whose upstream calls all fail at the network layer. -/
def failingClient : Client where
  getStores := fun _ => .error .network
  checkSlots := fun _ => .error .network

/-- A client whose locator succeeds with the scenario stores but whose
slot checks all fail to decode. -/
def probeFailClient : Client where
  getStores := fun _ => .ok scenarioStores
  checkSlots := fun _ => .error .decode

/-- A client whose locator succeeds with an empty store list. -/
def emptyStoresClient : Client where
  getStores := fun _ => .ok ⟨⟨[]⟩⟩
  checkSlots := fun _ => .error .network

/-- C1: for every decoded slot mapping (distinct keys), the computed
possible_availability flag is true iff the mapping has exactly two entries
and the entry keyed "1" is true. -/
theorem possible_availability_iff (slots : SlotMap)
    (h : (slots.map Prod.fst).Nodup) :
    possible_availability slots = true ↔
      slots.length = 2 ∧ slots.lookup "1" = some true := by
  unfold possible_availability
  cases hl : slots.lookup "1" with
  | none => simp [hl]
  | some b => cases b <;> simp [hl, And.comm]

/-- C1 witness: the policy evaluated on the concrete mapping
{"1" ↦ true, "2" ↦ false}. -/
theorem possible_availability_iff_witness :
    possible_availability [("1", true), ("2", false)] = true ↔
      ([("1", true), ("2", false)] : SlotMap).length = 2 ∧
      ([("1", true), ("2", false)] : SlotMap).lookup "1" = some true :=
  possible_availability_iff [("1", true), ("2", false)] (by decide)

theorem lookup_cons_self {β : Type} (k : String) (v : β) (l : List (String × β)) :
    List.lookup k ((k, v) :: l) = some v := by
  simp [List.lookup]

theorem lookup_cons_ne {β : Type} (a k : String) (v : β) (l : List (String × β))
    (h : a ≠ k) : List.lookup a ((k, v) :: l) = List.lookup a l := by
  have hb : (a == k) = false := beq_eq_false_iff_ne.mpr h
  simp [List.lookup, hb]

theorem list_stores_ok_lookup (zip_code : String) (client : Client)
    (store_cache : Cache) (v : GetStoresResponse) (cache' : Cache)
    (h : list_stores zip_code client store_cache = (.ok v, cache')) :
    cache'.lookup zip_code = some v := by
  unfold list_stores at h
  cases hc : store_cache.lookup zip_code with
  | some s =>
    rw [hc] at h
    simp only [Prod.mk.injEq, Except.ok.injEq] at h
    rw [← h.2, hc, h.1]
  | none =>
    rw [hc] at h
    cases hg : client.getStores zip_code with
    | error e => rw [hg] at h; simp at h
    | ok w =>
      rw [hg] at h
      simp only [Prod.mk.injEq, Except.ok.injEq] at h
      rw [← h.2, ← h.1, lookup_cons_self]

/-- C5: the cache is only ever extended with a fully decoded successful
locator response; on a lookup error (or a hit) the cache is unchanged, so
any error leaves the cache untouched. -/
theorem cache_only_stores_success (zip_code : String) (client : Client)
    (store_cache : Cache) (r : Except Err GetStoresResponse) (cache' : Cache)
    (h : list_stores zip_code client store_cache = (r, cache')) :
    (∀ e, r = .error e → cache' = store_cache) ∧
    (cache' = store_cache ∨
      ∃ v, client.getStores zip_code = .ok v ∧ r = .ok v ∧
        cache' = (zip_code, v) :: store_cache) := by
  unfold list_stores at h
  cases hc : store_cache.lookup zip_code with
  | some s =>
    rw [hc] at h
    simp only [Prod.mk.injEq] at h
    exact ⟨fun e _ => h.2.symm, Or.inl h.2.symm⟩
  | none =>
    rw [hc] at h
    cases hg : client.getStores zip_code with
    | error e =>
      rw [hg] at h
      simp only [Prod.mk.injEq] at h
      exact ⟨fun e _ => h.2.symm, Or.inl h.2.symm⟩
    | ok w =>
      rw [hg] at h
      simp only [Prod.mk.injEq] at h
      refine ⟨fun e he => ?_, Or.inr ⟨w, rfl, h.1.symm, h.2.symm⟩⟩
      rw [← h.1] at he
      simp at he

/-- C5 witness: a failed lookup on an empty cache inserts nothing. -/
theorem cache_only_stores_success_witness :
    (∀ e, (Except.error Err.network : Except Err GetStoresResponse) = .error e →
        ([] : Cache) = []) ∧
    (([] : Cache) = [] ∨
      ∃ v, failingClient.getStores "10001" = .ok v ∧
        (Except.error Err.network : Except Err GetStoresResponse) = .ok v ∧
        ([] : Cache) = ("10001", v) :: []) :=
  cache_only_stores_success "10001" failingClient [] (.error .network) [] rfl

/-- C6: on a cache miss with a failing locator call, the whole aggregation
returns that error, issues no probe, and leaves the cache unchanged. -/
theorem resolve_failure_aborts (zip_code : String) (client : Client)
    (store_cache : Cache) (e : Err)
    (hmiss : store_cache.lookup zip_code = none)
    (hfail : client.getStores zip_code = .error e) :
    availability zip_code client store_cache = (.error e, [], store_cache) := by
  simp [availability, list_stores, hmiss, hfail]

/-- C6 witness: a cache miss with the failing client aborts with its
network error and no probes. -/
theorem resolve_failure_aborts_witness :
    availability "10001" failingClient [] = (.error .network, [], []) :=
  resolve_failure_aborts "10001" failingClient [] .network rfl rfl

/-- C10: a successful probe sends the store's own `storeNumber` as the
query parameter and copies id, address, zip code and phone unchanged from
the store record into the produced `AvailabilityResponse`. -/
theorem probe_frame (client : Client) (store : Store)
    (resp : CheckSlotsResponse)
    (h : client.checkSlots store.store_number = .ok resp) :
    probe client store =
      (.ok { id := store.store_number
             address := store.address
             possible_availability := possible_availability resp.data.slots
             zip := store.zip_code
             phone := store.phone },
       store.store_number) := by
  simp [probe, h]

/-- C10 witness: the probe for scenario store 100 queries id 100 and copies
its fields. -/
theorem probe_frame_witness :
    probe scenarioClient ⟨100, "1 Main St", "10001", "555-0001"⟩ =
      (.ok { id := 100
             address := "1 Main St"
             possible_availability := possible_availability [("1", true), ("2", true)]
             zip := "10001"
             phone := "555-0001" },
       100) :=
  probe_frame scenarioClient ⟨100, "1 Main St", "10001", "555-0001"⟩
    ⟨⟨[("1", true), ("2", true)]⟩⟩ rfl

/-- C9: if the resolved store list is empty, the aggregation succeeds with
an empty record list and issues no probe. -/
theorem empty_resolution_ok (zip_code : String) (client : Client)
    (store_cache : Cache) (response : GetStoresResponse) (cache' : Cache)
    (hres : list_stores zip_code client store_cache = (.ok response, cache'))
    (hempty : response.data.stores = []) :
    availability zip_code client store_cache = (.ok [], [], cache') := by
  simp [availability, hres, hempty, runProbes]

/-- C9 witness: a locator returning zero stores yields the empty result. -/
theorem empty_resolution_ok_witness :
    availability "10001" emptyStoresClient [] =
      (.ok [], [], [("10001", ⟨⟨[]⟩⟩)]) :=
  empty_resolution_ok "10001" emptyStoresClient [] ⟨⟨[]⟩⟩
    [("10001", ⟨⟨[]⟩⟩)] rfl rfl

/-- C8: in the concrete two-store scenario the aggregation succeeds with
exactly the records {100, possible_availability true} and {200,
possible_availability false}, fields copied from the stores. -/
theorem scenario_two_stores :
    availability "10001" scenarioClient [] =
      (.ok [⟨100, "1 Main St", true, "10001", "555-0001"⟩,
            ⟨200, "2 Main St", false, "10001", "555-0002"⟩],
       [100, 200], [("10001", scenarioStores)]) := by
  rfl

theorem runProbes_error_of_mem (client : Client) (l : List Store) (s : Store)
    (hs : s ∈ l) (e : Err)
    (hfail : client.checkSlots s.store_number = .error e) :
    ∃ e2, (runProbes client l).fst = .error e2 := by
  induction l with
  | nil => cases hs
  | cons a rest ih =>
    rcases List.mem_cons.mp hs with rfl | hmem
    · exact ⟨e, by simp [runProbes, probe, hfail]⟩
    · cases hp : probe client a with
      | mk pr q =>
        cases pr with
        | error e2 => exact ⟨e2, by simp [runProbes, hp]⟩
        | ok record =>
          obtain ⟨e2, he2⟩ := ih hmem
          cases hrr : runProbes client rest with
          | mk res log =>
            rw [hrr] at he2
            simp only at he2
            subst he2
            exact ⟨e2, by simp [runProbes, hp, hrr]⟩

/-- C2: if the store list resolves but the slot probe of any one of its
stores fails, the whole aggregation returns an error (no partial record
list is ever produced, since the result is either an error or a full
list). -/
theorem probe_failure_aborts (zip_code : String) (client : Client)
    (store_cache : Cache) (response : GetStoresResponse) (cache' : Cache)
    (hres : list_stores zip_code client store_cache = (.ok response, cache'))
    (s : Store) (hs : s ∈ response.data.stores) (e : Err)
    (hfail : client.checkSlots s.store_number = .error e) :
    ∃ e2, (availability zip_code client store_cache).fst = .error e2 := by
  obtain ⟨e2, he2⟩ :=
    runProbes_error_of_mem client response.data.stores s hs e hfail
  cases hrr : runProbes client response.data.stores with
  | mk res log =>
    rw [hrr] at he2
    simp only at he2
    subst he2
    exact ⟨e2, by simp [availability, hres, hrr]⟩

/-- C2 witness: with the locator succeeding and every slot probe failing to
decode, the aggregation for the two-store scenario errors out. -/
theorem probe_failure_aborts_witness :
    ∃ e2, (availability "10001" probeFailClient []).fst = .error e2 :=
  probe_failure_aborts "10001" probeFailClient [] scenarioStores
    [("10001", scenarioStores)] rfl
    ⟨100, "1 Main St", "10001", "555-0001"⟩ (by decide) .decode rfl

/-- C3: if a first aggregation for a postal code succeeds, the resulting
cache resolves that postal code for any later client — in particular one
whose locator fails — without touching the upstream, returning exactly the
cached location list and leaving the cache unchanged. -/
theorem second_call_reads_cache (zip_code : String) (c1 c2 : Client)
    (store_cache : Cache) (records : List AvailabilityResponse)
    (log : List Int) (cache' : Cache)
    (h : availability zip_code c1 store_cache = (.ok records, log, cache')) :
    ∃ v, cache'.lookup zip_code = some v ∧
      list_stores zip_code c2 cache' = (.ok v, cache') := by
  cases hls : list_stores zip_code c1 store_cache with
  | mk res σ1 =>
    cases res with
    | error e => simp [availability, hls] at h
    | ok response =>
      cases hrp : runProbes c1 response.data.stores with
      | mk pres plog =>
        simp only [availability, hls, hrp, Prod.mk.injEq] at h
        obtain ⟨h1, h2, h3⟩ := h
        subst h3
        have hlk :=
          list_stores_ok_lookup zip_code c1 store_cache response _ hls
        exact ⟨response, hlk, by simp [list_stores, hlk]⟩

/-- C3 witness: after the successful scenario call, the cache serves
"10001" even for the always-failing client. -/
theorem second_call_reads_cache_witness :
    ∃ v, ([("10001", scenarioStores)] : Cache).lookup "10001" = some v ∧
      list_stores "10001" failingClient [("10001", scenarioStores)] =
        (.ok v, [("10001", scenarioStores)]) :=
  second_call_reads_cache "10001" scenarioClient failingClient []
    [⟨100, "1 Main St", true, "10001", "555-0001"⟩,
     ⟨200, "2 Main St", false, "10001", "555-0002"⟩]
    [100, 200] [("10001", scenarioStores)] rfl

theorem runProbes_ok (client : Client) (l : List Store)
    (hok : ∀ s ∈ l, ∃ r, client.checkSlots s.store_number = .ok r) :
    ∃ records, runProbes client l =
      (.ok records, l.map Store.store_number) ∧ records.length = l.length := by
  induction l with
  | nil => exact ⟨[], rfl, rfl⟩
  | cons a rest ih =>
    obtain ⟨r, hr⟩ := hok a (List.mem_cons_self a rest)
    obtain ⟨recs, hrec, hlen⟩ := ih fun s hs => hok s (List.mem_cons_of_mem a hs)
    refine ⟨{ id := a.store_number
              address := a.address
              possible_availability := possible_availability r.data.slots
              zip := a.zip_code
              phone := a.phone } :: recs, ?_, by simp [hlen]⟩
    simp [runProbes, probe, hr, hrec]

/-- C4: when the store list resolves to N stores and every probe succeeds,
the aggregation issues exactly one probe per store (the issued query
parameters are exactly the stores' ids, in order) and returns exactly N
records. -/
theorem all_probes_collected (zip_code : String) (client : Client)
    (store_cache : Cache) (response : GetStoresResponse) (cache' : Cache)
    (hres : list_stores zip_code client store_cache = (.ok response, cache'))
    (hok : ∀ s ∈ response.data.stores,
      ∃ r, client.checkSlots s.store_number = .ok r) :
    ∃ records, availability zip_code client store_cache =
      (.ok records, response.data.stores.map Store.store_number, cache') ∧
      records.length = response.data.stores.length := by
  obtain ⟨records, hrec, hlen⟩ := runProbes_ok client response.data.stores hok
  exact ⟨records, by simp [availability, hres, hrec], hlen⟩

/-- C4 witness: the two-store scenario issues probes [100, 200] and yields
two records. -/
theorem all_probes_collected_witness :
    ∃ records, availability "10001" scenarioClient [] =
      (.ok records, scenarioStores.data.stores.map Store.store_number,
       [("10001", scenarioStores)]) ∧
      records.length = scenarioStores.data.stores.length :=
  all_probes_collected "10001" scenarioClient [] scenarioStores
    [("10001", scenarioStores)] rfl
    (by
      intro s hs
      simp [scenarioStores] at hs
      rcases hs with rfl | rfl <;> exact ⟨_, rfl⟩)

theorem lookup_eq_none_of_not_mem {β : Type} (a : String)
    (l : List (String × β)) (h : a ∉ l.map Prod.fst) :
    List.lookup a l = none := by
  induction l with
  | nil => rfl
  | cons kv rest ih =>
    obtain ⟨k, v⟩ := kv
    simp only [List.map_cons, List.mem_cons, not_or] at h
    rw [lookup_cons_ne a k v rest h.1]
    exact ih h.2

theorem slotSpec_cons_ne {α : Type} (dec : Json → Except Err α)
    (key k : String) (v : Json) (rest : List (String × Json)) (o : Option α)
    (h : key ≠ k) :
    slotSpec dec key ((k, v) :: rest) o ↔ slotSpec dec key rest o := by
  cases o <;> simp [slotSpec, lookup_cons_ne _ _ _ _ h]

theorem slot_num_iff (fields : List (String × Json)) (key : String) :
    (∃ v a, fields.lookup key = some v ∧ decodeI32 v = .ok a) ↔
      ∃ n, fields.lookup key = some (.num n) ∧ i32Min ≤ n ∧ n ≤ i32Max := by
  constructor
  · rintro ⟨v, a, hlk, hdec⟩
    cases v with
    | num m =>
      by_cases hb : i32Min ≤ m ∧ m ≤ i32Max
      · exact ⟨m, hlk, hb.1, hb.2⟩
      · simp [decodeI32, hb] at hdec
    | null => simp [decodeI32] at hdec
    | bool b => simp [decodeI32] at hdec
    | str s => simp [decodeI32] at hdec
    | arr elems => simp [decodeI32] at hdec
    | obj fs => simp [decodeI32] at hdec
  · rintro ⟨n, hlk, hlo, hhi⟩
    exact ⟨.num n, n, hlk, by simp [decodeI32, hlo, hhi]⟩

theorem slot_str_iff (fields : List (String × Json)) (key : String) :
    (∃ v a, fields.lookup key = some v ∧ decodeString v = .ok a) ↔
      ∃ s, fields.lookup key = some (.str s) := by
  constructor
  · rintro ⟨v, a, hlk, hdec⟩
    cases v with
    | str s => exact ⟨s, hlk⟩
    | null => simp [decodeString] at hdec
    | bool b => simp [decodeString] at hdec
    | num m => simp [decodeString] at hdec
    | arr elems => simp [decodeString] at hdec
    | obj fs => simp [decodeString] at hdec
  · rintro ⟨s, hlk⟩
    exact ⟨.str s, s, hlk, rfl⟩

theorem finish_dsf_iff (fields : List (String × Json)) :
    ∀ acc : StoreFields, (fields.map Prod.fst).Nodup →
      ((∃ st, finishStore (decodeStoreFields fields acc) = .ok st) ↔
        slotSpec decodeI32 "storeNumber" fields acc.store_number ∧
        slotSpec decodeString "address" fields acc.address ∧
        slotSpec decodeString "zipcode" fields acc.zip_code ∧
        slotSpec decodeString "fullPhone" fields acc.phone) := by
  induction fields with
  | nil =>
    rintro ⟨sn, ad, zc, ph⟩ _
    cases sn <;> cases ad <;> cases zc <;> cases ph <;>
      simp [decodeStoreFields, finishStore, slotSpec, List.lookup]
  | cons kv rest ih =>
    rintro acc hnd
    obtain ⟨k, v⟩ := kv
    simp only [List.map_cons, List.nodup_cons] at hnd
    obtain ⟨hk, hrest⟩ := hnd
    by_cases h1 : k = "storeNumber"
    · subst h1
      cases hsn : acc.store_number with
      | some n0 =>
        have heq : decodeStoreFields (("storeNumber", v) :: rest) acc
            = .error .decode := by
          simp [decodeStoreFields, hsn]
        rw [heq]
        simp [finishStore, slotSpec, lookup_cons_self]
      | none =>
        cases hdv : decodeI32 v with
        | error e =>
          have heq : decodeStoreFields (("storeNumber", v) :: rest) acc
              = .error e := by
            simp [decodeStoreFields, hsn, hdv]
          rw [heq]
          simp [finishStore, slotSpec, lookup_cons_self, hdv]
        | ok n =>
          have heq : decodeStoreFields (("storeNumber", v) :: rest) acc
              = decodeStoreFields rest { acc with store_number := some n } := by
            simp [decodeStoreFields, hsn, hdv]
          have hlnone : List.lookup "storeNumber" rest = none :=
            lookup_eq_none_of_not_mem _ _ hk
          rw [heq, ih { acc with store_number := some n } hrest,
            slotSpec_cons_ne decodeString "address" "storeNumber" v rest
              acc.address (by decide),
            slotSpec_cons_ne decodeString "zipcode" "storeNumber" v rest
              acc.zip_code (by decide),
            slotSpec_cons_ne decodeString "fullPhone" "storeNumber" v rest
              acc.phone (by decide)]
          simp [slotSpec, hlnone, lookup_cons_self, hdv]
    · by_cases h2 : k = "address"
      · subst h2
        cases had : acc.address with
        | some a0 =>
          have heq : decodeStoreFields (("address", v) :: rest) acc
              = .error .decode := by
            simp [decodeStoreFields, had]
          rw [heq]
          simp [finishStore, slotSpec, lookup_cons_self]
        | none =>
          cases hdv : decodeString v with
          | error e =>
            have heq : decodeStoreFields (("address", v) :: rest) acc
                = .error e := by
              simp [decodeStoreFields, had, hdv]
            rw [heq]
            simp [finishStore, slotSpec, lookup_cons_self, hdv]
          | ok a =>
            have heq : decodeStoreFields (("address", v) :: rest) acc
                = decodeStoreFields rest { acc with address := some a } := by
              simp [decodeStoreFields, had, hdv]
            have hlnone : List.lookup "address" rest = none :=
              lookup_eq_none_of_not_mem _ _ hk
            rw [heq, ih { acc with address := some a } hrest,
              slotSpec_cons_ne decodeI32 "storeNumber" "address" v rest
                acc.store_number (by decide),
              slotSpec_cons_ne decodeString "zipcode" "address" v rest
                acc.zip_code (by decide),
              slotSpec_cons_ne decodeString "fullPhone" "address" v rest
                acc.phone (by decide)]
            simp [slotSpec, hlnone, lookup_cons_self, hdv]
      · by_cases h3 : k = "zipcode"
        · subst h3
          cases hzc : acc.zip_code with
          | some z0 =>
            have heq : decodeStoreFields (("zipcode", v) :: rest) acc
                = .error .decode := by
              simp [decodeStoreFields, hzc]
            rw [heq]
            simp [finishStore, slotSpec, lookup_cons_self]
          | none =>
            cases hdv : decodeString v with
            | error e =>
              have heq : decodeStoreFields (("zipcode", v) :: rest) acc
                  = .error e := by
                simp [decodeStoreFields, hzc, hdv]
              rw [heq]
              simp [finishStore, slotSpec, lookup_cons_self, hdv]
            | ok z =>
              have heq : decodeStoreFields (("zipcode", v) :: rest) acc
                  = decodeStoreFields rest { acc with zip_code := some z } := by
                simp [decodeStoreFields, hzc, hdv]
              have hlnone : List.lookup "zipcode" rest = none :=
                lookup_eq_none_of_not_mem _ _ hk
              rw [heq, ih { acc with zip_code := some z } hrest,
                slotSpec_cons_ne decodeI32 "storeNumber" "zipcode" v rest
                  acc.store_number (by decide),
                slotSpec_cons_ne decodeString "address" "zipcode" v rest
                  acc.address (by decide),
                slotSpec_cons_ne decodeString "fullPhone" "zipcode" v rest
                  acc.phone (by decide)]
              simp [slotSpec, hlnone, lookup_cons_self, hdv]
        · by_cases h4 : k = "fullPhone"
          · subst h4
            cases hph : acc.phone with
            | some p0 =>
              have heq : decodeStoreFields (("fullPhone", v) :: rest) acc
                  = .error .decode := by
                simp [decodeStoreFields, hph]
              rw [heq]
              simp [finishStore, slotSpec, lookup_cons_self]
            | none =>
              cases hdv : decodeString v with
              | error e =>
                have heq : decodeStoreFields (("fullPhone", v) :: rest) acc
                    = .error e := by
                  simp [decodeStoreFields, hph, hdv]
                rw [heq]
                simp [finishStore, slotSpec, lookup_cons_self, hdv]
              | ok p =>
                have heq : decodeStoreFields (("fullPhone", v) :: rest) acc
                    = decodeStoreFields rest { acc with phone := some p } := by
                  simp [decodeStoreFields, hph, hdv]
                have hlnone : List.lookup "fullPhone" rest = none :=
                  lookup_eq_none_of_not_mem _ _ hk
                rw [heq, ih { acc with phone := some p } hrest,
                  slotSpec_cons_ne decodeI32 "storeNumber" "fullPhone" v rest
                    acc.store_number (by decide),
                  slotSpec_cons_ne decodeString "address" "fullPhone" v rest
                    acc.address (by decide),
                  slotSpec_cons_ne decodeString "zipcode" "fullPhone" v rest
                    acc.zip_code (by decide)]
                simp [slotSpec, hlnone, lookup_cons_self, hdv]
          · have heq : decodeStoreFields ((k, v) :: rest) acc
                = decodeStoreFields rest acc := by
              simp [decodeStoreFields, h1, h2, h3, h4]
            rw [heq, ih acc hrest,
              slotSpec_cons_ne decodeI32 "storeNumber" k v rest
                acc.store_number (Ne.symm h1),
              slotSpec_cons_ne decodeString "address" k v rest
                acc.address (Ne.symm h2),
              slotSpec_cons_ne decodeString "zipcode" k v rest
                acc.zip_code (Ne.symm h3),
              slotSpec_cons_ne decodeString "fullPhone" k v rest
                acc.phone (Ne.symm h4)]

/-- C7 counterexample: decoding does not fail only on missing required
fields.  Two payloads carry every required field under its key with its
primitive type, yet fail to decode: one repeats the `storeNumber` field
(serde's `duplicate_field` error), one holds a `storeNumber` outside `i32`
range. -/
theorem decodeStore_presence_not_sufficient :
    (dupFieldPayload.lookup "storeNumber" = some (.num 100) ∧
     dupFieldPayload.lookup "address" = some (.str "1 Main St") ∧
     dupFieldPayload.lookup "zipcode" = some (.str "10001") ∧
     dupFieldPayload.lookup "fullPhone" = some (.str "555-0001") ∧
     decodeStore (.obj dupFieldPayload) = .error .decode) ∧
    (hugeIdPayload.lookup "storeNumber" = some (.num 3000000000) ∧
     hugeIdPayload.lookup "address" = some (.str "1 Main St") ∧
     hugeIdPayload.lookup "zipcode" = some (.str "10001") ∧
     hugeIdPayload.lookup "fullPhone" = some (.str "555-0001") ∧
     decodeStore (.obj hugeIdPayload) = .error .decode) :=
  ⟨⟨rfl, rfl, rfl, rfl, rfl⟩, ⟨rfl, rfl, rfl, rfl, rfl⟩⟩

/-- C7 (amended): decoding a store record ignores fields under unknown
keys, and on payloads whose keys are pairwise distinct it succeeds exactly
when every required field is present with its required type — `storeNumber`
an integer within `i32` range, `address`, `zipcode` and `fullPhone`
strings; otherwise it fails with the decode error.  (A payload repeating a
known field, or with `storeNumber` out of `i32` range, fails even with all
required fields present — see the counterexample.) -/
theorem decodeStore_spec :
    (∀ (k : String) (v : Json) (fields : List (String × Json)),
        k ∉ storeKeys →
        decodeStore (.obj ((k, v) :: fields)) = decodeStore (.obj fields)) ∧
    (∀ fields : List (String × Json), (fields.map Prod.fst).Nodup →
        ((∃ st, decodeStore (.obj fields) = .ok st) ↔
          (∃ n, fields.lookup "storeNumber" = some (.num n) ∧
            i32Min ≤ n ∧ n ≤ i32Max) ∧
          (∃ a, fields.lookup "address" = some (.str a)) ∧
          (∃ z, fields.lookup "zipcode" = some (.str z)) ∧
          (∃ p, fields.lookup "fullPhone" = some (.str p)))) := by
  constructor
  · intro k v fields hk
    simp only [storeKeys, List.mem_cons, List.mem_singleton, not_or] at hk
    obtain ⟨h1, h2, h3, h4, -⟩ := hk
    simp [decodeStore, decodeStoreFields, h1, h2, h3, h4]
  · intro fields hnd
    have hmain := finish_dsf_iff fields ⟨none, none, none, none⟩ hnd
    simp only [slotSpec] at hmain
    rw [show decodeStore (.obj fields)
        = finishStore (decodeStoreFields fields ⟨none, none, none, none⟩)
      from rfl, hmain,
      slot_num_iff fields "storeNumber", slot_str_iff fields "address",
      slot_str_iff fields "zipcode", slot_str_iff fields "fullPhone"]

/-- C7 witness: on the complete well-formed payload, an extra unknown field
is ignored and the success condition holds concretely. -/
theorem decodeStore_spec_witness :
    (decodeStore (.obj (("extra", .null) :: storePayload))
      = decodeStore (.obj storePayload)) ∧
    ((∃ st, decodeStore (.obj storePayload) = .ok st) ↔
      (∃ n, storePayload.lookup "storeNumber" = some (.num n) ∧
        i32Min ≤ n ∧ n ≤ i32Max) ∧
      (∃ a, storePayload.lookup "address" = some (.str a)) ∧
      (∃ z, storePayload.lookup "zipcode" = some (.str z)) ∧
      (∃ p, storePayload.lookup "fullPhone" = some (.str p))) :=
  ⟨decodeStore_spec.1 "extra" .null storePayload (by decide),
   decodeStore_spec.2 storePayload (by decide)⟩
